import Mathlib

/-!
Verification development for the Subu Bakery order-taking backend
(repository tajale72/Ncaffe, Go source in `main.go` of the bakery server).

The Go source is shallowly embedded: collections persisted in the document
store become Lean lists, the process-wide session map becomes an association
list, instants (`time.Time`) become natural numbers, and monetary amounts
(Go `float64`) become rationals — every price occurring in the program and
every sum the claims mention is exactly representable, and the concrete
scenario total 8.99·2 + 4.99 = 22.97 is exact in binary64 as well, so the
rational model agrees with the float computation on everything stated here.
Store operations that can fail for environmental reasons (timeouts,
connectivity) take explicit Boolean fault flags; the Go control flow on the
error is translated branch by branch.
-/

namespace SubuBakery

/-- An instant (`time.Time`), as an abstract tick count; the Go zero value
of `time.Time` corresponds to `0`. -/
abbrev Time := Nat

/-- A session token (hex string from `generateToken`). -/
abbrev Token := String

/-- The process-wide `activeSessions map[string]time.Time`, embedded as an
association list from token to expiry instant. -/
abbrev SessionStore := List (Token × Time)

/-- Go map read `expiry, exists := activeSessions[token]`. -/
def lookupSession (s : SessionStore) (t : Token) : Option Time :=
  (s.find? (fun e => e.1 == t)).map (fun e => e.2)

/-- Go `delete(activeSessions, token)`: removes every binding of `t`. -/
def eraseSession (s : SessionStore) (t : Token) : SessionStore :=
  s.filter (fun e => e.1 != t)

/-- Go map write `activeSessions[token] = expiry` (replacing semantics). -/
def insertSession (s : SessionStore) (t : Token) (expiry : Time) : SessionStore :=
  (t, expiry) :: eraseSession s t

/-- The session lifetime: `24 * time.Hour`, measured in seconds to match
the advertised `expiresIn: 86400`. -/
def sessionDuration : Time := 86400

/-- Outcome of the `requireAuth` middleware. -/
inductive AuthResult where
  | missing   -- 401 "Authentication required" (no token presented)
  | invalid   -- 401 "Invalid or expired session"
  | allowed   -- c.Next()
deriving DecidableEq, Repr

/-- `requireAuth` (main.go lines 450-471), after token extraction: reject
when no token, otherwise reject iff `!exists || time.Now().After(expiry)`,
i.e. authenticate iff the token is present and `now ≤ expiry`. -/
def requireAuthDecision (s : SessionStore) (now : Time) (token : Token) : AuthResult :=
  if token = "" then .missing
  else
    match lookupSession s token with
    | none => .invalid
    | some expiry => if expiry < now then .invalid else .allowed

/-- `checkAuth` (main.go lines 553-566), after token extraction: report
`authenticated: true` iff `exists && time.Now().Before(expiry)`. -/
def checkAuthDecision (s : SessionStore) (now : Time) (token : Token) : Bool :=
  if token = "" then false
  else
    match lookupSession s token with
    | none => false
    | some expiry => decide (now < expiry)

/-- Token extraction of `requireAuth` (lines 441-459): Authorization header
first, else the `auth_token` cookie; then strip a `"Bearer "` lead when the
token is longer than 7 characters. -/
def extractTokenRequireAuth (authHeader : String) (cookie : Option String) : String :=
  let token0 := if authHeader = "" then cookie.getD "" else authHeader
  if token0.length > 7 ∧ token0.take 7 = "Bearer " then token0.drop 7 else token0

/-- Token extraction shared by `handleLogout` and `checkAuth`
(lines 519-527 and 543-551): use the header with its `"Bearer "` lead
stripped when present, otherwise the cookie when present, otherwise the
raw header. -/
def extractTokenBearerElseCookie (authHeader : String) (cookie : Option String) : String :=
  if authHeader.length > 7 ∧ authHeader.take 7 = "Bearer " then authHeader.drop 7
  else
    match cookie with
    | some c => c
    | none => authHeader

/-- `handleLogin` (lines 476-515), after token generation: on correct
credentials store `expiry = now + 24h` and answer 200 (`true`); on wrong
credentials answer 401 with no session created. -/
def handleLogin (s : SessionStore) (username password adminU adminP : String)
    (token : Token) (now : Time) : SessionStore × Bool :=
  if username ≠ adminU ∨ password ≠ adminP then (s, false)
  else (insertSession s token (now + sessionDuration), true)

/-- `handleLogout` (lines 518-538), after token extraction: delete the
binding when a token was presented, and answer 200 (`true`) in every case. -/
def handleLogout (s : SessionStore) (token : Token) : SessionStore × Bool :=
  (if token ≠ "" then eraseSession s token else s, true)

/-- One pass of the `cleanupSessions` loop body (lines 583-591): delete
every entry with `now.After(expiry)`, keep the rest. -/
def sweepSessions (s : SessionStore) (now : Time) : SessionStore :=
  s.filter (fun e => !(decide (e.2 < now)))

/-- A store-assigned record identity (`primitive.ObjectID`), as the natural
number its 12 bytes denote. -/
abbrev ObjectId := Nat

/-- A BSON scalar as it appears in a query filter: the embedding keeps the
value's BSON type, because MongoDB equality filters never match a string
query value against an int32 field. -/
inductive BsonVal where
  | int (n : Int)
  | str (s : String)
deriving DecidableEq, Repr

/-- `Product` (main.go lines 24-33); `price` is kept as a rational. -/
structure Product where
  id : ObjectId
  productId : Int
  name : String
  description : String
  price : ℚ
  image : String
  category : String
  createdAt : Time
deriving DecidableEq, Repr

/-- `Customer` (lines 53-58). -/
structure Customer where
  name : String
  email : String
  phone : String
  address : String
deriving DecidableEq, Repr

/-- `OrderItem` (lines 36-39). -/
structure OrderItem where
  productId : Int
  quantity : Int
deriving DecidableEq, Repr

/-- `Order` (lines 42-50). -/
structure Order where
  id : ObjectId
  orderId : Int
  customer : Customer
  items : List OrderItem
  total : ℚ
  status : String
  createdAt : Time
deriving DecidableEq, Repr

/-- The `bson.M` document inserted into the delivered collection
(lines 379-388). -/
structure DeliveredOrder where
  id : ObjectId
  orderId : Int
  customer : Customer
  items : List OrderItem
  total : ℚ
  status : String
  createdAt : Time
  deliveredAt : Time
deriving DecidableEq, Repr

/-- The three MongoDB collections of the `sububakery` database. -/
structure DB where
  products : List Product
  orders : List Order
  delivered : List DeliveredOrder
deriving DecidableEq, Repr

/-- Value of a character as a hexadecimal digit, when it is one. -/
def hexDigitVal (c : Char) : Option Nat :=
  if c.isDigit then some (c.toNat - 48)
  else if 97 ≤ c.toNat ∧ c.toNat ≤ 102 then some (c.toNat - 87)
  else if 65 ≤ c.toNat ∧ c.toNat ≤ 70 then some (c.toNat - 55)
  else none

/-- `primitive.ObjectIDFromHex`: accepts exactly 24 hexadecimal characters
(either case) and decodes them to the 12-byte identity. -/
def objectIdFromHex (s : String) : Option ObjectId :=
  if s.length = 24 ∧ s.toList.all (fun c => (hexDigitVal c).isSome) then
    some (s.toList.foldl (fun a c => 16 * a + (hexDigitVal c).getD 0) 0)
  else none

/-- Result of the `GET /api/products/:id` handler. -/
inductive GetProductResult where
  | ok (p : Product)
  | notFound     -- 404 "Product not found"
deriving DecidableEq, Repr

/-- The BSON value stored in a product document's `productId` field:
an int32. -/
def productIdField (p : Product) : BsonVal := .int p.productId

/-- `getProduct` (lines 202-233): if the path id parses as an ObjectID,
look the product up by `_id`; otherwise fall back to a `productId` filter
whose query value is still the raw path *string*, so the filter compares a
BSON string against the int32 `productId` field.
Store faults are not modelled on this read path (they only relabel the
failure as a 500). -/
def getProduct (db : DB) (idParam : String) : GetProductResult :=
  match objectIdFromHex idParam with
  | none =>
    match db.products.find? (fun p => productIdField p == BsonVal.str idParam) with
    | none => .notFound
    | some p => .ok p
  | some objectID =>
    match db.products.find? (fun p => p.id == objectID) with
    | none => .notFound
    | some p => .ok p

/-- The default catalog written by `initializeDefaultProducts`
(lines 684-693); record identities and creation instants are abstracted as
the embedding's concrete values. -/
def defaultProducts : List Product :=
  [ { id := 1, productId := 1, name := "Chocolate Chip Cookies",
      description := "Freshly baked cookies with premium chocolate chips",
      price := 899/100, image := "🍪", category := "Cookies", createdAt := 0 },
    { id := 2, productId := 2, name := "Blueberry Muffins",
      description := "Moist muffins bursting with fresh blueberries",
      price := 699/100, image := "🧁", category := "Muffins", createdAt := 0 },
    { id := 3, productId := 3, name := "Croissant",
      description := "Buttery, flaky French croissant",
      price := 499/100, image := "🥐", category := "Pastries", createdAt := 0 },
    { id := 4, productId := 4, name := "Chocolate Cake",
      description := "Rich chocolate layer cake with buttercream frosting",
      price := 2499/100, image := "🎂", category := "Cakes", createdAt := 0 },
    { id := 5, productId := 5, name := "Apple Pie",
      description := "Homemade apple pie with cinnamon",
      price := 1899/100, image := "🥧", category := "Pies", createdAt := 0 },
    { id := 6, productId := 6, name := "Bagels",
      description := "Fresh New York style bagels (pack of 6)",
      price := 799/100, image := "🥯", category := "Breads", createdAt := 0 },
    { id := 7, productId := 7, name := "Cinnamon Roll",
      description := "Warm cinnamon rolls with cream cheese glaze",
      price := 599/100, image := "🍩", category := "Pastries", createdAt := 0 },
    { id := 8, productId := 8, name := "Strawberry Tart",
      description := "Delicate tart with fresh strawberries",
      price := 1299/100, image := "🍓", category := "Tarts", createdAt := 0 } ]

/-- The per-item catalog lookup of `createOrder` (line 260): a filter on
the numeric `productId` field, with a correctly typed int query value. -/
def findProductByPid (ps : List Product) (pid : Int) : Option Product :=
  ps.find? (fun p => p.productId == pid)

/-- The total computation of `createOrder` (lines 254-264): fold over the
items, adding `price * quantity` when the product lookup succeeds and
nothing otherwise. -/
def orderTotal (ps : List Product) (items : List OrderItem) : ℚ :=
  items.foldl
    (fun total item =>
      match findProductByPid ps item.productId with
      | some product => total + product.price * (item.quantity : ℚ)
      | none => total)
    0

/-- The contribution of one item to the total: price times quantity when
the product exists, `0` otherwise. -/
def itemContribution (ps : List Product) (item : OrderItem) : ℚ :=
  match findProductByPid ps item.productId with
  | some product => product.price * (item.quantity : ℚ)
  | none => 0

/-- The highest `orderId` in the active collection, as found by the
descending-sorted `FindOne` of `getNextOrderID`; `none` when the
collection is empty (`mongo.ErrNoDocuments`). -/
def maxOrderId : List Order → Option Int
  | [] => none
  | o :: rest =>
    match maxOrderId rest with
    | none => some o.orderId
    | some m => some (max o.orderId m)

/-- `getNextOrderID` (lines 626-644) on a successful query: highest stored
`orderId` plus one, or `1` when no orders exist. -/
def getNextOrderID (orders : List Order) : Int :=
  match maxOrderId orders with
  | none => 1
  | some m => m + 1

/-- The request body of `POST /api/orders` once it parsed. -/
structure OrderRequest where
  customer : Customer
  items : List OrderItem
deriving DecidableEq, Repr

/-- Environmental store faults during `createOrder`. -/
structure CreateFaults where
  idQueryFails : Bool   -- getNextOrderID FindOne fails (not ErrNoDocuments)
  insertFails : Bool    -- ordersCollection.InsertOne fails
deriving DecidableEq, Repr

/-- Result of the `POST /api/orders` handler. -/
inductive CreateOrderResult where
  | badRequestParse        -- 400, body did not bind
  | badRequestEmpty        -- 400 "Order must contain at least one item"
  | idError                -- 500 "Failed to generate order ID"
  | saveError              -- 500 "Failed to save order"
  | created (o : Order)    -- 201 with the persisted order
deriving DecidableEq, Repr

/-- `createOrder` (lines 236-292): bind the body (`none` models a body
that does not parse), reject an empty item list, compute the total from
current store prices, obtain the next order identifier, build the order
with status `pending`, and insert it. -/
def createOrder (db : DB) (req : Option OrderRequest) (newId : ObjectId)
    (now : Time) (f : CreateFaults) : DB × CreateOrderResult :=
  match req with
  | none => (db, .badRequestParse)
  | some r =>
    if r.items.isEmpty then (db, .badRequestEmpty)
    else
      let total := orderTotal db.products r.items
      if f.idQueryFails then (db, .idError)
      else
        let nextOrderID := getNextOrderID db.orders
        let order : Order :=
          { id := newId, orderId := nextOrderID, customer := r.customer,
            items := r.items, total := total, status := "pending", createdAt := now }
        if f.insertFails then (db, .saveError)
        else ({ db with orders := db.orders ++ [order] }, .created order)

/-- Environmental store faults during `markOrderDelivered`. -/
structure DeliverFaults where
  findFails : Bool      -- step-1 FindOne fails (not ErrNoDocuments)
  insertFails : Bool    -- deliveredCollection.InsertOne fails
  deleteFails : Bool    -- ordersCollection.DeleteOne fails
  compFails : Bool      -- compensating deliveredCollection.DeleteOne fails
deriving DecidableEq, Repr

/-- Result of the `POST /api/orders/:id/deliver` handler. -/
inductive DeliverResult where
  | invalidId                            -- 400 "Invalid order ID format"
  | notFound                             -- 404 "Order not found"
  | fetchError                           -- 500 "Failed to fetch order"
  | saveError                            -- 500 "Failed to save delivered order"
  | removeError                          -- 500 "Failed to remove order from active orders"
  | ok (orderId : Int) (deliveredAt : Time)  -- 200 with message, orderId, deliveredAt
deriving DecidableEq, Repr

/-- The body of the JSON error answer each `DeliverResult` carries; the 200
answer's message is fixed as well. -/
def deliverResultMessage : DeliverResult → String
  | .invalidId => "Invalid order ID format"
  | .notFound => "Order not found"
  | .fetchError => "Failed to fetch order"
  | .saveError => "Failed to save delivered order"
  | .removeError => "Failed to remove order from active orders"
  | .ok _ _ => "Order marked as delivered"

/-- The HTTP status each `DeliverResult` is sent with. -/
def deliverResultStatus : DeliverResult → Nat
  | .invalidId => 400
  | .notFound => 404
  | .fetchError => 500
  | .saveError => 500
  | .removeError => 500
  | .ok _ _ => 200

/-- A store write attempted during `markOrderDelivered`. -/
inductive StoreEvent where
  | insertDelivered (d : DeliveredOrder)
  | deleteActive (oid : ObjectId)
  | deleteDelivered (oid : ObjectId)
deriving DecidableEq, Repr

/-- The `FindOne` on the active collection by `_id`. -/
def findOrderById (orders : List Order) (oid : ObjectId) : Option Order :=
  orders.find? (fun o => o.id == oid)

/-- The delivered document built at lines 379-388 from the fetched order:
identical fields plus status `delivered` and `deliveredAt = now`. -/
def deliveredDoc (order : Order) (now : Time) : DeliveredOrder :=
  { id := order.id, orderId := order.orderId, customer := order.customer,
    items := order.items, total := order.total, status := "delivered",
    createdAt := order.createdAt, deliveredAt := now }

/-- Effect of a *successful* store write on the database. `InsertOne`
appends; `DeleteOne` removes the first document matching the `_id`
filter. -/
def applyEvent (db : DB) : StoreEvent → DB
  | .insertDelivered d => { db with delivered := db.delivered ++ [d] }
  | .deleteActive oid => { db with orders := db.orders.eraseP (fun o => o.id == oid) }
  | .deleteDelivered oid => { db with delivered := db.delivered.eraseP (fun d => d.id == oid) }

/-- `markOrderDelivered` (lines 349-411): parse the path id, fetch the
order from the active collection, insert the delivered document, delete
the active document, and on a delete failure attempt the compensating
delete of the delivered document (its error is discarded) before answering
500. Besides the final database and the handler result, the embedding
records the list of attempted store writes in program order, each tagged
with whether it succeeded. -/
def markOrderDelivered (db : DB) (idParam : String) (now : Time)
    (f : DeliverFaults) : DB × DeliverResult × List (StoreEvent × Bool) :=
  match objectIdFromHex idParam with
  | none => (db, .invalidId, [])
  | some objectID =>
    if f.findFails then (db, .fetchError, [])
    else
      match findOrderById db.orders objectID with
      | none => (db, .notFound, [])
      | some order =>
        let d := deliveredDoc order now
        if f.insertFails then (db, .saveError, [(.insertDelivered d, false)])
        else
          let db1 := applyEvent db (.insertDelivered d)
          if f.deleteFails then
            if f.compFails then
              (db1, .removeError,
                [(.insertDelivered d, true), (.deleteActive objectID, false),
                 (.deleteDelivered objectID, false)])
            else
              (applyEvent db1 (.deleteDelivered objectID), .removeError,
                [(.insertDelivered d, true), (.deleteActive objectID, false),
                 (.deleteDelivered objectID, true)])
          else
            (applyEvent db1 (.deleteActive objectID), .ok order.orderId now,
              [(.insertDelivered d, true), (.deleteActive objectID, true)])

/-- The database states traversed while the attempted writes execute:
the initial state, then the state after each attempt (a failed attempt
leaves the state unchanged). -/
def statesAlong (db : DB) (evs : List (StoreEvent × Bool)) : List DB :=
  evs.scanl (fun s e => if e.2 then applyEvent s e.1 else s) db

/-- How many copies of the record identity `oid` exist across the active
and the delivered collections. -/
def copiesOf (db : DB) (oid : ObjectId) : Nat :=
  db.orders.countP (fun o => o.id == oid) + db.delivered.countP (fun d => d.id == oid)

/-- Descending insertion by key, modelling the store's sort with value -1. -/
def insertDescBy {α : Type} (key : α → Nat) (x : α) : List α → List α
  | [] => [x]
  | y :: ys => if key y < key x then x :: y :: ys else y :: insertDescBy key x ys

/-- Sort a collection descending by key. -/
def sortDescBy {α : Type} (key : α → Nat) : List α → List α
  | [] => []
  | x :: xs => insertDescBy key x (sortDescBy key xs)

/-- The active-orders read path, `getOrders` (lines 295-317): all active
orders sorted by `createdAt` descending. -/
def getOrdersList (db : DB) : List Order :=
  sortDescBy (fun o => o.createdAt) db.orders

/-- The delivered read path, `getDeliveredOrders` (lines 414-436): all
delivered documents sorted by `deliveredAt` descending. -/
def getDeliveredList (db : DB) : List DeliveredOrder :=
  sortDescBy (fun d => d.deliveredAt) db.delivered

/-! ### Helper lemmas -/

theorem mem_insertDescBy {α : Type} (key : α → Nat) (x a : α) (l : List α) :
    a ∈ insertDescBy key x l ↔ a = x ∨ a ∈ l := by
  induction l with
  | nil => simp [insertDescBy]
  | cons y ys ih =>
    by_cases h : key y < key x
    · simp [insertDescBy, h]
    · simp [insertDescBy, h, ih]
      tauto

theorem mem_sortDescBy {α : Type} (key : α → Nat) (a : α) (l : List α) :
    a ∈ sortDescBy key l ↔ a ∈ l := by
  induction l with
  | nil => simp [sortDescBy]
  | cons x xs ih => simp [sortDescBy, mem_insertDescBy, ih]

theorem findOrderById_eq_none_of_not_mem (l : List Order) (oid : ObjectId)
    (h : oid ∉ l.map Order.id) : findOrderById l oid = none := by
  induction l with
  | nil => rfl
  | cons o rest ih =>
    simp only [List.map_cons, List.mem_cons, not_or] at h
    simp only [findOrderById, List.find?_cons]
    have hne : (o.id == oid) = false := by
      simp [beq_iff_eq]
      exact fun e => h.1 e.symm
    rw [hne]
    exact ih h.2

theorem findOrderById_eraseP_none (l : List Order) (oid : ObjectId)
    (h : (l.map Order.id).Nodup) :
    findOrderById (l.eraseP (fun o => o.id == oid)) oid = none := by
  induction l with
  | nil => rfl
  | cons o rest ih =>
    simp only [List.map_cons, List.nodup_cons] at h
    by_cases he : o.id = oid
    · have hp : (o.id == oid) = true := by simp [he]
      rw [List.eraseP_cons, hp]
      simp only [cond_true]
      apply findOrderById_eq_none_of_not_mem
      rw [← he]
      exact h.1
    · have hp : (o.id == oid) = false := by simp [he]
      rw [List.eraseP_cons, hp]
      simp only [cond_false]
      simp only [findOrderById, List.find?_cons, hp]
      exact ih h.2

theorem find?_eq_none_of_findOrderById (l : List Order) (oid : ObjectId)
    (h : findOrderById l oid = none) : ∀ o ∈ l, o.id ≠ oid := by
  intro o ho
  have := List.find?_eq_none.mp h o ho
  simpa using this

theorem orderTotal_aux (ps : List Product) (items : List OrderItem) (acc : ℚ) :
    items.foldl
      (fun total item =>
        match findProductByPid ps item.productId with
        | some product => total + product.price * (item.quantity : ℚ)
        | none => total)
      acc = acc + (items.map (itemContribution ps)).sum := by
  induction items generalizing acc with
  | nil => simp
  | cons item rest ih =>
    simp only [List.foldl_cons, List.map_cons, List.sum_cons]
    cases hf : findProductByPid ps item.productId with
    | none => rw [ih]; simp [itemContribution, hf]
    | some p => rw [ih]; simp [itemContribution, hf]; ring

theorem orderTotal_eq_sum (ps : List Product) (items : List OrderItem) :
    orderTotal ps items = (items.map (itemContribution ps)).sum := by
  simpa using orderTotal_aux ps items 0

theorem le_of_maxOrderId (l : List Order) (m : Int) (h : maxOrderId l = some m) :
    ∀ o ∈ l, o.orderId ≤ m := by
  induction l generalizing m with
  | nil => simp
  | cons o rest ih =>
    intro x hx
    simp only [maxOrderId] at h
    cases hm : maxOrderId rest with
    | none =>
      rw [hm] at h
      cases hm2 : rest with
      | nil =>
        simp only [Option.some.injEq] at h
        rcases List.mem_cons.mp hx with h1 | h1
        · simp [h1, ← h]
        · simp [hm2] at h1
      | cons b bs => simp [hm2, maxOrderId] at hm; cases hb : maxOrderId bs <;> simp [hb] at hm
    | some mr =>
      rw [hm] at h
      simp only [Option.some.injEq] at h
      rcases List.mem_cons.mp hx with h1 | h1
      · rw [h1, ← h]; exact le_max_left _ _
      · calc x.orderId ≤ mr := ih mr hm x h1
          _ ≤ m := by rw [← h]; exact le_max_right _ _

theorem maxOrderId_mem (l : List Order) (m : Int) (h : maxOrderId l = some m) :
    ∃ o ∈ l, o.orderId = m := by
  induction l generalizing m with
  | nil => simp [maxOrderId] at h
  | cons o rest ih =>
    simp only [maxOrderId] at h
    cases hm : maxOrderId rest with
    | none =>
      rw [hm] at h
      simp only [Option.some.injEq] at h
      exact ⟨o, List.mem_cons_self o rest, h⟩
    | some mr =>
      rw [hm] at h
      simp only [Option.some.injEq] at h
      rcases max_cases o.orderId mr with ⟨he, _⟩ | ⟨he, _⟩
      · exact ⟨o, List.mem_cons_self o rest, by rw [← h, he]⟩
      · obtain ⟨x, hx, hxe⟩ := ih mr hm
        exact ⟨x, List.mem_cons_of_mem o hx, by rw [← h, he, hxe]⟩

theorem maxOrderId_append_single (l : List Order) (o : Order) :
    maxOrderId (l ++ [o]) =
      some (match maxOrderId l with
            | none => o.orderId
            | some m => max m o.orderId) := by
  induction l with
  | nil => simp [maxOrderId]
  | cons x xs ih =>
    rw [List.cons_append]
    simp only [maxOrderId, ih]
    cases hm : maxOrderId xs with
    | none => simp [hm]
    | some m => simp [hm, max_assoc]

theorem getNextOrderID_append (l : List Order) (o : Order)
    (h : o.orderId = getNextOrderID l) :
    getNextOrderID (l ++ [o]) = getNextOrderID l + 1 := by
  simp only [getNextOrderID, maxOrderId_append_single] at h ⊢
  cases hm : maxOrderId l with
  | none => simp only [hm] at h ⊢; simp [h]
  | some m =>
    simp only [hm] at h ⊢
    rw [h, max_eq_right (by omega : m ≤ m + 1)]

theorem eraseSession_eq_of_lookup_none (s : SessionStore) (t : Token)
    (h : lookupSession s t = none) : eraseSession s t = s := by
  rw [eraseSession, List.filter_eq_self]
  intro e he
  simp only [lookupSession, Option.map_eq_none', List.find?_eq_none] at h
  have := h e he
  simpa using this

theorem lookupSession_eraseSession (s : SessionStore) (t : Token) :
    lookupSession (eraseSession s t) t = none := by
  simp only [lookupSession, Option.map_eq_none', List.find?_eq_none, eraseSession]
  intro e he
  have := (List.mem_filter.mp he).2
  simpa using this

theorem lookupSession_insertSession (s : SessionStore) (t : Token) (e : Time) :
    lookupSession (insertSession s t e) t = some e := by
  simp [lookupSession, insertSession, List.find?_cons]

theorem maxOrderId_eq_none (l : List Order) (h : maxOrderId l = none) : l = [] := by
  cases l with
  | nil => rfl
  | cons o rest =>
    simp only [maxOrderId] at h
    cases hm : maxOrderId rest <;> rw [hm] at h <;> cases h

theorem copiesOf_pos_active (db : DB) (oid : ObjectId) (o : Order)
    (ho : o ∈ db.orders) (he : o.id = oid) : 0 < copiesOf db oid := by
  have h1 : 0 < db.orders.countP (fun x => x.id == oid) :=
    List.countP_pos_iff.mpr ⟨o, ho, by simp [he]⟩
  simp only [copiesOf]
  omega

theorem copiesOf_pos_delivered (db : DB) (oid : ObjectId) (d : DeliveredOrder)
    (hd : d ∈ db.delivered) (he : d.id = oid) : 0 < copiesOf db oid := by
  have h1 : 0 < db.delivered.countP (fun x => x.id == oid) :=
    List.countP_pos_iff.mpr ⟨d, hd, by simp [he]⟩
  simp only [copiesOf]
  omega

/-! ### Claim C7 — session sweep boundary -/

/-- C7 counterexample: the claim says every entry whose expiry is **at or
before** the current instant is removed by the sweep; but an entry expiring
exactly at the current instant (expiry = now = 5) survives
`cleanupSessions`, because the loop deletes only on `now.After(expiry)`. -/
theorem sweepSessions_retains_boundary_entry :
    sweepSessions [("tok", 5)] 5 = [("tok", 5)] ∧ (5 : Time) ≤ 5 := by decide

/-- C7 (amended): after a run of the session sweep, every entry whose
expiry is **strictly before** the current instant has been removed, and
every entry whose expiry is **at or after** it is retained: an entry is in
the swept store iff it was in the store and `now ≤ expiry`. -/
theorem sweepSessions_mem_iff (s : SessionStore) (now : Time) (e : Token × Time) :
    e ∈ sweepSessions s now ↔ e ∈ s ∧ now ≤ e.2 := by
  simp [sweepSessions, List.mem_filter, Nat.not_lt]

/-! ### Claim C6 — session validation boundary -/

/-- C6 counterexample: a check at exactly the expiry instant.  The claim
says session validation authenticates iff the token is present **and its
expiry is strictly after now**; but `requireAuth` rejects only on
`time.Now().After(expiry)`, so with expiry = now = 100 the token is
accepted although the expiry is not strictly after the current instant. -/
theorem requireAuth_allows_at_expiry_instant :
    requireAuthDecision [("tok", 100)] 100 "tok" = .allowed ∧
    lookupSession [("tok", 100)] "tok" = some 100 ∧ ¬((100 : Time) < 100) := by
  refine ⟨by decide, by decide, by decide⟩

/-- C6 (amended): `checkAuth` authenticates iff the token is present and
its expiry is strictly after now, so a `GET /api/auth/check` at or after
the 24-hour expiry instant reports unauthenticated and one before it
succeeds; `requireAuth`, however, authenticates iff the token is present
and its expiry is **at or after** now, so at exactly the expiry instant
the middleware still lets the request through. -/
theorem authDecision_characterization :
    (∀ (s : SessionStore) (now : Time) (tok : Token),
        requireAuthDecision s now tok = .allowed ↔
          tok ≠ "" ∧ ∃ e, lookupSession s tok = some e ∧ now ≤ e) ∧
    (∀ (s : SessionStore) (now : Time) (tok : Token),
        checkAuthDecision s now tok = true ↔
          tok ≠ "" ∧ ∃ e, lookupSession s tok = some e ∧ now < e) ∧
    (∀ (s : SessionStore) (u p : String) (tok : Token) (t0 t : Time),
        tok ≠ "" →
        (handleLogin s u p u p tok t0).2 = true ∧
        (t < t0 + sessionDuration →
          checkAuthDecision (handleLogin s u p u p tok t0).1 t tok = true) ∧
        (t0 + sessionDuration ≤ t →
          checkAuthDecision (handleLogin s u p u p tok t0).1 t tok = false) ∧
        requireAuthDecision (handleLogin s u p u p tok t0).1
          (t0 + sessionDuration) tok = .allowed) := by
  refine ⟨?_, ?_, ?_⟩
  · intro s now tok
    by_cases ht : tok = ""
    · simp [requireAuthDecision, ht]
    · cases hl : lookupSession s tok with
      | none => simp [requireAuthDecision, ht, hl]
      | some e =>
        by_cases hlt : e < now
        · simp only [requireAuthDecision, if_neg ht, hl, if_pos hlt]
          constructor
          · intro h; cases h
          · rintro ⟨-, e2, he2, hle⟩
            rw [Option.some.injEq] at he2
            subst he2
            exact absurd hle (Nat.not_le.mpr hlt)
        · simp only [requireAuthDecision, if_neg ht, hl, if_neg hlt]
          constructor
          · intro _; exact ⟨ht, e, rfl, Nat.le_of_not_lt hlt⟩
          · intro _; trivial
  · intro s now tok
    by_cases ht : tok = ""
    · simp [checkAuthDecision, ht]
    · cases hl : lookupSession s tok with
      | none => simp [checkAuthDecision, ht, hl]
      | some e => simp [checkAuthDecision, ht, hl]
  · intro s u p tok t0 t ht
    have hlogin : handleLogin s u p u p tok t0 =
        (insertSession s tok (t0 + sessionDuration), true) := by
      simp [handleLogin]
    have hlook : lookupSession (handleLogin s u p u p tok t0).1 tok =
        some (t0 + sessionDuration) := by
      rw [hlogin]; exact lookupSession_insertSession s tok _
    refine ⟨by rw [hlogin], ?_, ?_, ?_⟩
    · intro hlt
      simp [checkAuthDecision, ht, hlook, hlt]
    · intro hge
      have hnlt : ¬(t < t0 + sessionDuration) := Nat.not_lt.mpr hge
      simp [checkAuthDecision, ht, hlook, hnlt]
    · simp [requireAuthDecision, ht, hlook]

/-- Witness for the C6 theorem: on a store freshly logged in at instant 0
with admin credentials, a check at instant 10 (before the 86400-second
window closes) reports authenticated. -/
theorem authDecision_characterization_witness :
    checkAuthDecision (handleLogin [] "admin" "admin" "admin" "admin" "t" 0).1 10 "t" = true :=
  ((authDecision_characterization.2.2 [] "admin" "admin" "t" 0 10 (by decide)).2.1
    (by norm_num [sessionDuration]))

/-! ### Claim C9 — logout revocation -/

/-- C9: logout answers 200 for every presented token (also when it is
absent from the store — revoking an absent token is a no-op, not an
error), it removes the token's session entry unconditionally, and
afterwards the same token fails both `requireAuth` and `checkAuth` at
every instant, regardless of its unexpired 24-hour window. -/
theorem handleLogout_revokes (s : SessionStore) (tok : Token) (now : Time) :
    (handleLogout s tok).2 = true ∧
    (tok ≠ "" → lookupSession (handleLogout s tok).1 tok = none) ∧
    (lookupSession s tok = none → (handleLogout s tok).1 = s) ∧
    requireAuthDecision (handleLogout s tok).1 now tok ≠ .allowed ∧
    checkAuthDecision (handleLogout s tok).1 now tok = false := by
  by_cases ht : tok = ""
  · subst ht
    refine ⟨rfl, by simp, by simp [handleLogout], ?_, ?_⟩
    · simp [handleLogout, requireAuthDecision]
    · simp [handleLogout, checkAuthDecision]
  · have hres : (handleLogout s tok).1 = eraseSession s tok := by
      simp [handleLogout, ht]
    have hnone : lookupSession (handleLogout s tok).1 tok = none := by
      rw [hres]; exact lookupSession_eraseSession s tok
    refine ⟨rfl, fun _ => hnone, ?_, ?_, ?_⟩
    · intro h0
      rw [hres]; exact eraseSession_eq_of_lookup_none s tok h0
    · simp [requireAuthDecision, ht, hnone]
    · simp [checkAuthDecision, ht, hnone]

/-- Witness for the C9 theorem: revoking the token of a session that would
stay valid until instant 100 makes an immediate check (instant 1) fail. -/
theorem handleLogout_revokes_witness :
    lookupSession (handleLogout [("t", 100)] "t").1 "t" = none :=
  (handleLogout_revokes [("t", 100)] "t" 1).2.1 (by decide)

/-- The order value `createOrder` constructs at lines 274-282, given the
store state and request. -/
def builtOrder (db : DB) (r : OrderRequest) (newId : ObjectId) (now : Time) : Order :=
  { id := newId, orderId := getNextOrderID db.orders, customer := r.customer,
    items := r.items, total := orderTotal db.products r.items,
    status := "pending", createdAt := now }

theorem createOrder_ok (db : DB) (r : OrderRequest) (newId : ObjectId)
    (now : Time) (hE : r.items.isEmpty = false) :
    createOrder db (some r) newId now ⟨false, false⟩ =
      ({ db with orders := db.orders ++ [builtOrder db r newId now] },
       .created (builtOrder db r newId now)) := by
  simp [createOrder, builtOrder, hE]

/-! ### Claim C4 — order identifier generation -/

/-- C4: sequential order identifier assignment.  A successful creation
assigns `getNextOrderID` of the current store and makes the next value one
larger; the value is `1` on an empty store; when the stored identifiers
are positive (as they are for every sequentially created store) it is the
smallest positive integer greater than every stored `orderId`; and on a
store query error the creation fails with no identifier assigned and the
store unchanged. -/
theorem getNextOrderID_spec (db : DB) (r : OrderRequest) (newId : ObjectId)
    (now : Time) (g : Bool) (hne : r.items ≠ []) :
    (∃ o, (createOrder db (some r) newId now ⟨false, false⟩).2 = .created o ∧
       o.orderId = getNextOrderID db.orders ∧
       getNextOrderID (createOrder db (some r) newId now ⟨false, false⟩).1.orders
         = getNextOrderID db.orders + 1) ∧
    (db.orders = [] → getNextOrderID db.orders = 1) ∧
    ((∀ o ∈ db.orders, 0 < o.orderId) →
       0 < getNextOrderID db.orders ∧
       (∀ o ∈ db.orders, o.orderId < getNextOrderID db.orders) ∧
       (∀ m : Int, 0 < m → (∀ o ∈ db.orders, o.orderId < m) →
          getNextOrderID db.orders ≤ m)) ∧
    ((createOrder db (some r) newId now ⟨true, g⟩).2 = .idError ∧
     (createOrder db (some r) newId now ⟨true, g⟩).1 = db) := by
  have hE : r.items.isEmpty = false := by
    cases hi : r.items with
    | nil => exact absurd hi hne
    | cons a l => rfl
  have hco := createOrder_ok db r newId now hE
  refine ⟨?_, ?_, ?_, ?_⟩
  · refine ⟨builtOrder db r newId now, ?_, rfl, ?_⟩
    · rw [hco]
    · rw [hco]
      exact getNextOrderID_append db.orders _ rfl
  · intro h; rw [h]; rfl
  · intro hposall
    cases hm : maxOrderId db.orders with
    | none =>
      have hempty := maxOrderId_eq_none db.orders hm
      simp only [getNextOrderID, hm]
      refine ⟨by omega, ?_, fun m hm0 _ => by omega⟩
      rw [hempty]; intro o ho; cases ho
    | some mx =>
      obtain ⟨o0, ho0, he0⟩ := maxOrderId_mem db.orders mx hm
      have hmx0 : 0 < mx := he0 ▸ hposall o0 ho0
      have hle := le_of_maxOrderId db.orders mx hm
      simp only [getNextOrderID, hm]
      refine ⟨by omega, fun o ho => ?_, fun m _ hall => ?_⟩
      · have := hle o ho; omega
      · have := hall o0 ho0; omega
  · constructor <;> simp [createOrder, hE]

/-- Witness for the C4 theorem: the next order identifier on an empty
store is 1. -/
theorem getNextOrderID_spec_witness : getNextOrderID ([] : List Order) = 1 :=
  (getNextOrderID_spec ⟨[], [], []⟩ ⟨⟨"a", "b", "c", "d"⟩, [⟨1, 1⟩]⟩ 1 0 false
    (by decide)).2.1 rfl

/-! ### Claim C5 — order total computation -/

/-- The customer of the spec's concrete scenario. -/
def scenarioCustomer : Customer :=
  { name := "Jane", email := "jane@example.com", phone := "", address := "" }

/-- The order the scenario creation persists. -/
def scenarioOrder : Order :=
  { id := 9, orderId := 1, customer := scenarioCustomer,
    items := [⟨1, 2⟩, ⟨3, 1⟩], total := 2297/100, status := "pending",
    createdAt := 0 }

/-- C5: every created order's total is the sum over its items of (current
store price × quantity), an item whose productId matches no product
contributing 0 instead of failing the order; and the concrete scenario —
items (productId 1, qty 2) and (productId 3, qty 1) against the default
catalog on an empty store — yields total 22.97, orderId 1 and status
pending. -/
theorem createOrder_total_spec :
    (∀ (db : DB) (r : OrderRequest) (newId : ObjectId) (now : Time)
        (f : CreateFaults) (o : Order),
        (createOrder db (some r) newId now f).2 = .created o →
        o.total = (r.items.map (itemContribution db.products)).sum ∧
        (∀ item ∈ r.items, findProductByPid db.products item.productId = none →
            itemContribution db.products item = 0)) ∧
    ((createOrder ⟨defaultProducts, [], []⟩
        (some ⟨scenarioCustomer, [⟨1, 2⟩, ⟨3, 1⟩]⟩) 9 0 ⟨false, false⟩).2
      = .created scenarioOrder ∧
     scenarioOrder.total = 2297/100 ∧ scenarioOrder.orderId = 1 ∧
     scenarioOrder.status = "pending") := by
  constructor
  · intro db r newId now f o h
    simp only [createOrder] at h
    split at h
    · cases h
    · split at h
      · cases h
      · split at h
        · cases h
        · simp only [Prod.snd] at h
          rw [CreateOrderResult.created.injEq] at h
          constructor
          · rw [← h, orderTotal_eq_sum]
          · intro item _ hnone
            simp [itemContribution, hnone]
  · have htot : orderTotal defaultProducts [⟨1, 2⟩, ⟨3, 1⟩] = 2297/100 := by
      rw [orderTotal_eq_sum]
      norm_num [itemContribution, findProductByPid, defaultProducts]
    have h2 : (createOrder ⟨defaultProducts, [], []⟩
        (some ⟨scenarioCustomer, [⟨1, 2⟩, ⟨3, 1⟩]⟩) 9 0 ⟨false, false⟩).2 =
        CreateOrderResult.created
          { id := 9, orderId := 1, customer := scenarioCustomer,
            items := [⟨1, 2⟩, ⟨3, 1⟩],
            total := orderTotal defaultProducts [⟨1, 2⟩, ⟨3, 1⟩],
            status := "pending", createdAt := 0 } := rfl
    refine ⟨?_, rfl, rfl, rfl⟩
    rw [h2, htot]
    rfl

/-- Witness for the C5 theorem: the scenario order's total evaluates to
the sum of the item contributions over the default catalog. -/
theorem createOrder_total_spec_witness :
    scenarioOrder.total =
      (([⟨1, 2⟩, ⟨3, 1⟩] : List OrderItem).map
        (itemContribution defaultProducts)).sum :=
  (createOrder_total_spec.1 ⟨defaultProducts, [], []⟩
    ⟨scenarioCustomer, [⟨1, 2⟩, ⟨3, 1⟩]⟩ 9 0 ⟨false, false⟩ scenarioOrder
    createOrder_total_spec.2.1).1

/-! ### Claim C10 — no quantity validation on order creation -/

/-- A zero-price product, as the data model allows (price is a
non-negative decimal) and as `updateProduct` can produce, since it parses
the form price ignoring errors and writes it with no validation. -/
def freeProduct : Product :=
  { id := 21, productId := 1, name := "Promo Cookie",
    description := "temporarily free", price := 0, image := "",
    category := "Cookies", createdAt := 0 }

/-- C10 counterexample: the claim says a negative quantity for **any**
existing product strictly decreases the computed total; for an existing
product with price 0 the negative-quantity item contributes 0 and the
total does not decrease. -/
theorem negative_quantity_not_decreasing_at_zero_price :
    findProductByPid [freeProduct] 1 = some freeProduct ∧
    ¬(orderTotal [freeProduct] [⟨1, 5⟩, ⟨1, -1⟩] <
        orderTotal [freeProduct] [⟨1, 5⟩]) := by
  have h1 : findProductByPid [freeProduct] 1 = some freeProduct := rfl
  have hp : freeProduct.price = 0 := rfl
  refine ⟨h1, ?_⟩
  rw [orderTotal_eq_sum, orderTotal_eq_sum]
  simp [itemContribution, h1, hp]

/-- C10 (amended): create-order performs no validation of item
quantities — every parsed request with a non-empty item list is accepted
with its items unchanged (zero or negative quantities included); the only
400 rejections on this path are an unparseable body and an empty item
list; and a negative quantity for an existing product **of positive
price** strictly decreases the computed total. -/
theorem createOrder_no_quantity_validation (db : DB) (r : OrderRequest)
    (newId : ObjectId) (now : Time) (hne : r.items ≠ []) :
    (∃ o, (createOrder db (some r) newId now ⟨false, false⟩).2 = .created o ∧
        o.items = r.items) ∧
    (∀ (req : Option OrderRequest) (f : CreateFaults),
        ((createOrder db req newId now f).2 = .badRequestParse ∨
         (createOrder db req newId now f).2 = .badRequestEmpty) ↔
          (req = none ∨ ∃ r2, req = some r2 ∧ r2.items = [])) ∧
    (∀ (ps : List Product) (items : List OrderItem) (pid q : Int) (p : Product),
        findProductByPid ps pid = some p → 0 < p.price → q < 0 →
        orderTotal ps (items ++ [⟨pid, q⟩]) < orderTotal ps items) := by
  have hE : r.items.isEmpty = false := by
    cases hi : r.items with
    | nil => exact absurd hi hne
    | cons a l => rfl
  refine ⟨?_, ?_, ?_⟩
  · exact ⟨builtOrder db r newId now, by rw [createOrder_ok db r newId now hE], rfl⟩
  · intro req f
    cases req with
    | none => simp [createOrder]
    | some r2 =>
      by_cases hE2 : r2.items.isEmpty
      · have h0 : r2.items = [] := by
          cases hi : r2.items with
          | nil => rfl
          | cons a l => rw [hi] at hE2; cases hE2
        simp [createOrder, hE2, h0]
      · have h0 : r2.items ≠ [] := by
          intro hc; rw [hc] at hE2; exact hE2 rfl
        rcases f with ⟨iq, ins⟩
        cases iq <;> cases ins <;> simp [createOrder, hE2, h0]
  · intro ps items pid q p hf hp hq
    rw [orderTotal_eq_sum, orderTotal_eq_sum, List.map_append, List.sum_append]
    have hc : itemContribution ps ⟨pid, q⟩ = p.price * (q : ℚ) := by
      simp [itemContribution, hf]
    have hneg : p.price * (q : ℚ) < 0 :=
      mul_neg_of_pos_of_neg hp (by exact_mod_cast hq)
    simp only [List.map_cons, List.map_nil, List.sum_cons, List.sum_nil, hc]
    linarith

/-- A positive-price product used to witness the C10 theorem. -/
def paidProduct : Product :=
  { id := 22, productId := 7, name := "Sample", description := "",
    price := 3, image := "", category := "x", createdAt := 0 }

/-- Witness for the C10 theorem: appending a quantity −1 item for a
price-3 product strictly lowers the total. -/
theorem createOrder_no_quantity_validation_witness :
    orderTotal [paidProduct] [⟨7, 2⟩, ⟨7, -1⟩] < orderTotal [paidProduct] [⟨7, 2⟩] :=
  (createOrder_no_quantity_validation ⟨[paidProduct], [], []⟩
      ⟨⟨"a", "", "", ""⟩, [⟨7, -1⟩]⟩ 1 0 (by decide)).2.2
    [paidProduct] [⟨7, 2⟩] 7 (-1) paidProduct (by decide) (by decide) (by decide)

/-! ### Claim C8 — product lookup fallback by numeric productId -/

/-- C8: the path id "1" does not parse as a record identity, a product
with numeric `productId` 1 exists in the default catalog, and yet the
handler answers 404 — the fallback queries the `productId` (int32) field
with the raw path *string*, which can never match, contradicting the
handler's own stated intent of trying the id as a numeric productId. -/
theorem getProduct_fallback_bug :
    objectIdFromHex "1" = none ∧
    (defaultProducts.find? (fun p => p.productId == (1 : Int))).isSome = true ∧
    getProduct ⟨defaultProducts, [], []⟩ "1" = .notFound := by decide

/-! ### Claim C1 — the delivered transition -/

/-- C1: after a successful mark-delivered call on the record identity of
an active order (store writes succeeding, record identities unique in the
active collection, the call instant positive and at or after the order's
creation — the clock is monotone), the order is absent from the
active-orders read path, its delivered document is present in the
delivered read path with a non-zero delivered timestamp at or after its
creation timestamp, and a second mark-delivered call on the same record
identity (with a working store read) returns NotFound. -/
theorem markOrderDelivered_success_spec
    (db : DB) (idParam : String) (now now2 : Time) (oid : ObjectId) (order : Order)
    (f2 : DeliverFaults)
    (hid : objectIdFromHex idParam = some oid)
    (hfind : findOrderById db.orders oid = some order)
    (hnodup : (db.orders.map Order.id).Nodup)
    (hpos : 0 < now) (hcr : order.createdAt ≤ now)
    (hf2 : f2.findFails = false) :
    (markOrderDelivered db idParam now ⟨false, false, false, false⟩).2.1
      = .ok order.orderId now ∧
    (∀ o ∈ getOrdersList (markOrderDelivered db idParam now ⟨false, false, false, false⟩).1,
        o.id ≠ oid) ∧
    deliveredDoc order now ∈
      getDeliveredList (markOrderDelivered db idParam now ⟨false, false, false, false⟩).1 ∧
    (deliveredDoc order now).id = oid ∧
    (deliveredDoc order now).deliveredAt = now ∧
    0 < (deliveredDoc order now).deliveredAt ∧
    (deliveredDoc order now).createdAt ≤ (deliveredDoc order now).deliveredAt ∧
    (markOrderDelivered (markOrderDelivered db idParam now ⟨false, false, false, false⟩).1
        idParam now2 f2).2.1 = .notFound := by
  have hidOrd : order.id = oid := by
    have h := hfind
    simp only [findOrderById] at h
    have := List.find?_some h
    simpa using this
  have hrun : markOrderDelivered db idParam now ⟨false, false, false, false⟩ =
      ({ products := db.products,
         orders := db.orders.eraseP (fun o => o.id == oid),
         delivered := db.delivered ++ [deliveredDoc order now] },
       .ok order.orderId now,
       [(.insertDelivered (deliveredDoc order now), true), (.deleteActive oid, true)]) := by
    simp [markOrderDelivered, hid, hfind, applyEvent]
  have hgone : findOrderById (db.orders.eraseP (fun o => o.id == oid)) oid = none :=
    findOrderById_eraseP_none db.orders oid hnodup
  refine ⟨by rw [hrun], ?_, ?_, by simp [deliveredDoc, hidOrd], rfl, hpos, hcr, ?_⟩
  · intro o ho
    rw [hrun] at ho
    simp only [getOrdersList] at ho
    rw [mem_sortDescBy] at ho
    exact find?_eq_none_of_findOrderById _ oid hgone o ho
  · rw [hrun]
    simp only [getDeliveredList]
    rw [mem_sortDescBy]
    simp
  · rw [hrun]
    simp [markOrderDelivered, hid, hf2, hgone]

/-- An active order used for concrete evaluations of the delivered
transition. -/
def wOrder : Order :=
  { id := 1, orderId := 1, customer := ⟨"n", "e", "p", "a"⟩, items := [],
    total := 0, status := "pending", createdAt := 0 }

/-- A store holding only `wOrder`. -/
def wDB : DB := ⟨[], [wOrder], []⟩

/-- The 24-character hex rendering of `wOrder`'s record identity. -/
def wId : String := "000000000000000000000001"

/-- Witness for the C1 theorem: after delivering the only active order, a
second call on the same record identity answers NotFound. -/
theorem markOrderDelivered_success_spec_witness :
    (markOrderDelivered (markOrderDelivered wDB wId 5 ⟨false, false, false, false⟩).1
        wId 7 ⟨false, false, false, false⟩).2.1 = .notFound :=
  (markOrderDelivered_success_spec wDB wId 5 7 1 wOrder ⟨false, false, false, false⟩
    (by decide) rfl (by decide) (by decide) (by decide) rfl).2.2.2.2.2.2.2

/-! ### Claim C2 — insert-then-delete ordering and compensation -/

/-- C2: within a single mark-delivered transition on a present order, the
insert into the delivered collection is attempted before the delete from
the active collection (it is the first attempted write, the delete the
second); when the active delete fails, the compensating delete of the
just-inserted delivered record is attempted as the third write and the
caller gets an error; and along every intermediate state of the
transition the order exists in at least one copy across the two
collections (never zero copies). -/
theorem markOrderDelivered_ordering_spec
    (db : DB) (idParam : String) (now : Time) (oid : ObjectId) (order : Order)
    (f : DeliverFaults)
    (hid : objectIdFromHex idParam = some oid)
    (hff : f.findFails = false)
    (hfind : findOrderById db.orders oid = some order) :
    (f.insertFails = true →
       (markOrderDelivered db idParam now f).2.2 =
           [(.insertDelivered (deliveredDoc order now), false)] ∧
       (markOrderDelivered db idParam now f).2.1 = .saveError ∧
       (markOrderDelivered db idParam now f).1 = db) ∧
    (f.insertFails = false →
       (markOrderDelivered db idParam now f).2.2.get? 0 =
           some (.insertDelivered (deliveredDoc order now), true) ∧
       (markOrderDelivered db idParam now f).2.2.get? 1 =
           some (.deleteActive oid, !f.deleteFails) ∧
       (f.deleteFails = true →
          (markOrderDelivered db idParam now f).2.2.get? 2 =
              some (.deleteDelivered oid, !f.compFails) ∧
          (markOrderDelivered db idParam now f).2.1 = .removeError)) ∧
    (∀ s ∈ statesAlong db (markOrderDelivered db idParam now f).2.2,
        0 < copiesOf s oid) := by
  have hidOrd : order.id = oid := by
    have h := hfind
    simp only [findOrderById] at h
    have := List.find?_some h
    simpa using this
  have hmem : order ∈ db.orders := by
    have h := hfind
    simp only [findOrderById] at h
    exact List.mem_of_find?_eq_some h
  have hdmem : (deliveredDoc order now).id = oid := by simp [deliveredDoc, hidOrd]
  obtain ⟨ff, fi, fd, fc⟩ := f
  simp only at hff
  subst hff
  cases fi
  · cases fd
    · -- insert and delete both succeed
      have hrun : markOrderDelivered db idParam now ⟨false, false, false, fc⟩ =
          (applyEvent (applyEvent db (.insertDelivered (deliveredDoc order now)))
             (.deleteActive oid),
           .ok order.orderId now,
           [(.insertDelivered (deliveredDoc order now), true), (.deleteActive oid, true)]) := by
        simp [markOrderDelivered, hid, hfind]
      rw [hrun]
      refine ⟨?_, ?_, ?_⟩
      · intro h; cases h
      · intro _
        refine ⟨rfl, rfl, ?_⟩
        intro h; cases h
      · intro s hs
        simp only [statesAlong, List.scanl, List.mem_cons, List.not_mem_nil, or_false] at hs
        rcases hs with rfl | rfl | rfl
        · exact copiesOf_pos_active _ oid order hmem hidOrd
        · exact copiesOf_pos_active _ oid order (by simp [applyEvent, hmem]) hidOrd
        · refine copiesOf_pos_delivered _ oid (deliveredDoc order now) ?_ hdmem
          simp [applyEvent]
    · cases fc
      · -- delete fails, compensation succeeds
        have hrun : markOrderDelivered db idParam now ⟨false, false, true, false⟩ =
            (applyEvent (applyEvent db (.insertDelivered (deliveredDoc order now)))
               (.deleteDelivered oid),
             .removeError,
             [(.insertDelivered (deliveredDoc order now), true), (.deleteActive oid, false),
              (.deleteDelivered oid, true)]) := by
          simp [markOrderDelivered, hid, hfind]
        rw [hrun]
        refine ⟨?_, ?_, ?_⟩
        · intro h; cases h
        · intro _
          exact ⟨rfl, rfl, fun _ => ⟨rfl, rfl⟩⟩
        · intro s hs
          simp only [statesAlong, List.scanl, List.mem_cons, List.not_mem_nil, or_false] at hs
          rcases hs with rfl | rfl | rfl | rfl
          · exact copiesOf_pos_active _ oid order hmem hidOrd
          · exact copiesOf_pos_active _ oid order (by simp [applyEvent, hmem]) hidOrd
          · exact copiesOf_pos_active _ oid order (by simp [applyEvent, hmem]) hidOrd
          · exact copiesOf_pos_active _ oid order (by simp [applyEvent, hmem]) hidOrd
      · -- delete fails, compensation fails too
        have hrun : markOrderDelivered db idParam now ⟨false, false, true, true⟩ =
            (applyEvent db (.insertDelivered (deliveredDoc order now)),
             .removeError,
             [(.insertDelivered (deliveredDoc order now), true), (.deleteActive oid, false),
              (.deleteDelivered oid, false)]) := by
          simp [markOrderDelivered, hid, hfind]
        rw [hrun]
        refine ⟨?_, ?_, ?_⟩
        · intro h; cases h
        · intro _
          exact ⟨rfl, rfl, fun _ => ⟨rfl, rfl⟩⟩
        · intro s hs
          simp only [statesAlong, List.scanl, List.mem_cons, List.not_mem_nil, or_false] at hs
          rcases hs with rfl | rfl | rfl | rfl
          · exact copiesOf_pos_active _ oid order hmem hidOrd
          · exact copiesOf_pos_active _ oid order (by simp [applyEvent, hmem]) hidOrd
          · exact copiesOf_pos_active _ oid order (by simp [applyEvent, hmem]) hidOrd
          · exact copiesOf_pos_active _ oid order (by simp [applyEvent, hmem]) hidOrd
  · -- insert fails
    have hrun : markOrderDelivered db idParam now ⟨false, true, fd, fc⟩ =
        (db, .saveError, [(.insertDelivered (deliveredDoc order now), false)]) := by
      simp [markOrderDelivered, hid, hfind]
    rw [hrun]
    refine ⟨?_, ?_, ?_⟩
    · intro _
      exact ⟨rfl, rfl, rfl⟩
    · intro h; cases h
    · intro s hs
      simp only [statesAlong, List.scanl, List.mem_cons, List.not_mem_nil, or_false] at hs
      rcases hs with rfl | rfl
      · exact copiesOf_pos_active _ oid order hmem hidOrd
      · exact copiesOf_pos_active _ oid order hmem hidOrd

/-- Witness for the C2 theorem: on a run whose active delete and
compensating delete both fail, the third attempted write is the failed
compensating delete and the handler reports the 500. -/
theorem markOrderDelivered_ordering_spec_witness :
    (markOrderDelivered wDB wId 5 ⟨false, false, true, true⟩).2.2.get? 0 =
      some (.insertDelivered (deliveredDoc wOrder 5), true) :=
  ((markOrderDelivered_ordering_spec wDB wId 5 1 wOrder ⟨false, false, true, true⟩
    (by decide) rfl rfl).2.1 rfl).1

/-! ### Claim C3 — distinguishability of the compensation-failure outcome -/

/-- C3 counterexample: with the active-side delete failing, the handler's
answer is the same 500 "Failed to remove order from active orders"
whether the compensating delete succeeds or also fails; in the latter run
the order is left in both collections (two copies), yet nothing
distinguishable is surfaced to the caller. -/
theorem deliver_compensation_failure_same_response :
    (markOrderDelivered wDB wId 5 ⟨false, false, true, true⟩).2.1 =
      (markOrderDelivered wDB wId 5 ⟨false, false, true, false⟩).2.1 ∧
    (markOrderDelivered wDB wId 5 ⟨false, false, true, true⟩).2.1 = .removeError ∧
    copiesOf (markOrderDelivered wDB wId 5 ⟨false, false, true, true⟩).1 1 = 2 ∧
    deliverResultMessage .removeError = "Failed to remove order from active orders" ∧
    deliverResultStatus .removeError = 500 := by decide

/-- C3 (amended): when the active-side delete of a delivered-transition
fails, the operation answers 500 with the message "Failed to remove order
from active orders" whether or not the compensating delete succeeds; the
compensation-failure outcome, which leaves the order present in both
collections, is not distinguishable from the compensation-success outcome
by status or message (the compensating delete's error is discarded). -/
theorem deliver_compensation_failure_indistinguishable
    (db : DB) (idParam : String) (now : Time) (oid : ObjectId) (order : Order) (fc : Bool)
    (hid : objectIdFromHex idParam = some oid)
    (hfind : findOrderById db.orders oid = some order) :
    (markOrderDelivered db idParam now ⟨false, false, true, fc⟩).2.1 = .removeError ∧
    deliverResultStatus (markOrderDelivered db idParam now ⟨false, false, true, fc⟩).2.1 = 500 ∧
    deliverResultMessage (markOrderDelivered db idParam now ⟨false, false, true, fc⟩).2.1 =
      "Failed to remove order from active orders" ∧
    (fc = true →
       0 < (markOrderDelivered db idParam now ⟨false, false, true, fc⟩).1.orders.countP
            (fun o => o.id == oid) ∧
       0 < (markOrderDelivered db idParam now ⟨false, false, true, fc⟩).1.delivered.countP
            (fun d => d.id == oid)) := by
  have hidOrd : order.id = oid := by
    have h := hfind
    simp only [findOrderById] at h
    have := List.find?_some h
    simpa using this
  have hmem : order ∈ db.orders := by
    have h := hfind
    simp only [findOrderById] at h
    exact List.mem_of_find?_eq_some h
  cases fc
  · have hrun : markOrderDelivered db idParam now ⟨false, false, true, false⟩ =
        (applyEvent (applyEvent db (.insertDelivered (deliveredDoc order now)))
           (.deleteDelivered oid),
         .removeError,
         [(.insertDelivered (deliveredDoc order now), true), (.deleteActive oid, false),
          (.deleteDelivered oid, true)]) := by
      simp [markOrderDelivered, hid, hfind]
    rw [hrun]
    exact ⟨rfl, rfl, rfl, by intro h; cases h⟩
  · have hrun : markOrderDelivered db idParam now ⟨false, false, true, true⟩ =
        (applyEvent db (.insertDelivered (deliveredDoc order now)),
         .removeError,
         [(.insertDelivered (deliveredDoc order now), true), (.deleteActive oid, false),
          (.deleteDelivered oid, false)]) := by
      simp [markOrderDelivered, hid, hfind]
    rw [hrun]
    refine ⟨rfl, rfl, rfl, fun _ => ⟨?_, ?_⟩⟩
    · apply List.countP_pos_iff.mpr
      exact ⟨order, by simp [applyEvent, hmem], by simp [hidOrd]⟩
    · apply List.countP_pos_iff.mpr
      exact ⟨deliveredDoc order now, by simp [applyEvent], by simp [deliveredDoc, hidOrd]⟩

/-- Witness for the C3 theorem: in the concrete double-failure run the
caller sees exactly the generic removal-failure message. -/
theorem deliver_compensation_failure_indistinguishable_witness :
    deliverResultMessage (markOrderDelivered wDB wId 5 ⟨false, false, true, true⟩).2.1 =
      "Failed to remove order from active orders" :=
  (deliver_compensation_failure_indistinguishable wDB wId 5 1 wOrder true
    (by decide) rfl).2.2.1

end SubuBakery
